import Mathlib

/-!
# Verification of the desktop-app OAuth PKCE flow

Shallow embedding of `src/desktop_app/google-auth-server.py` (the
authorization orchestrator) and `src/desktop_app/google-proxy-server.py`
(the secret-injecting proxy).

Conventions of the embedding:
* bytes are `Nat` values (meaningful when `< 256`);
* calls into external libraries that are not part of this repository
  (`hashlib.sha256`, the random source `secrets.token_bytes`, the textual
  message of a caught exception, the identity provider's response) enter the
  model as explicit parameters or oracle values, so that the repository's own
  logic is total and executable;
* Python dicts whose insertion order matters are association lists.
-/

namespace DesktopApp

/-! ## Base64url encoding (`base64_url_encode` in google-auth-server.py)

Python's `base64.urlsafe_b64encode(data).rstrip(b'=')`: standard base64 with
the urlsafe alphabet (`-` and `_` replacing `+` and `/`), padded with `=`,
then all trailing `=` stripped. -/

/-- The urlsafe base64 alphabet: index 0..63 to character. -/
def b64urlChar (n : Nat) : Char :=
  if n < 26 then Char.ofNat (65 + n)
  else if n < 52 then Char.ofNat (97 + (n - 26))
  else if n < 62 then Char.ofNat (48 + (n - 52))
  else if n = 62 then '-'
  else '_'

/-- Inverse of the urlsafe base64 alphabet. -/
def b64urlIndex (c : Char) : Option Nat :=
  if 65 ≤ c.toNat ∧ c.toNat ≤ 90 then some (c.toNat - 65)
  else if 97 ≤ c.toNat ∧ c.toNat ≤ 122 then some (c.toNat - 97 + 26)
  else if 48 ≤ c.toNat ∧ c.toNat ≤ 57 then some (c.toNat - 48 + 52)
  else if c = '-' then some 62
  else if c = '_' then some 63
  else none

/-- Padded base64 encoding of a byte list with the urlsafe alphabet,
exactly as `base64.urlsafe_b64encode` produces it. -/
def b64urlEncodePadded : List Nat → List Char
  | [] => []
  | [b0] =>
      [b64urlChar (b0 / 4), b64urlChar (b0 % 4 * 16), '=', '=']
  | [b0, b1] =>
      [b64urlChar (b0 / 4), b64urlChar (b0 % 4 * 16 + b1 / 16),
       b64urlChar (b1 % 16 * 4), '=']
  | b0 :: b1 :: b2 :: rest =>
      b64urlChar (b0 / 4) :: b64urlChar (b0 % 4 * 16 + b1 / 16) ::
      b64urlChar (b1 % 16 * 4 + b2 / 64) :: b64urlChar (b2 % 64) ::
      b64urlEncodePadded rest

/-- `rstrip(b'=')`: drop every trailing `=`. -/
def rstripEq : List Char → List Char
  | [] => []
  | c :: cs =>
      match rstripEq cs with
      | [] => if c = '=' then [] else [c]
      | r => c :: r

/-- `base64_url_encode(data)` from google-auth-server.py:
"Base64url encode without padding". -/
def base64_url_encode (data : List Nat) : String :=
  String.mk (rstripEq (b64urlEncodePadded data))

/-- Decoder for unpadded urlsafe base64 (the spec's `base64url-decode`):
groups of 4 characters give 3 bytes, a trailing group of 3 gives 2 bytes,
a trailing group of 2 gives 1 byte; a lone trailing character or a
character outside the alphabet is invalid. -/
def b64urlDecodeChars : List Char → Option (List Nat)
  | [] => some []
  | [_] => none
  | [c0, c1] =>
      match b64urlIndex c0, b64urlIndex c1 with
      | some n0, some n1 => some [n0 * 4 + n1 / 16]
      | _, _ => none
  | [c0, c1, c2] =>
      match b64urlIndex c0, b64urlIndex c1, b64urlIndex c2 with
      | some n0, some n1, some n2 =>
          some [n0 * 4 + n1 / 16, n1 % 16 * 16 + n2 / 4]
      | _, _, _ => none
  | c0 :: c1 :: c2 :: c3 :: rest =>
      match b64urlIndex c0, b64urlIndex c1, b64urlIndex c2, b64urlIndex c3,
            b64urlDecodeChars rest with
      | some n0, some n1, some n2, some n3, some bs =>
          some ((n0 * 4 + n1 / 16) :: (n1 % 16 * 16 + n2 / 4) ::
                (n2 % 4 * 64 + n3) :: bs)
      | _, _, _, _, _ => none

/-- String form of the base64url decoder. -/
def base64_url_decode (s : String) : Option (List Nat) :=
  b64urlDecodeChars s.data

/-- Unpadded urlsafe base64 encoding: what `base64_url_encode` actually
returns (proved below), stated as its own recursion for proofs. -/
def b64urlEncodeRaw : List Nat → List Char
  | [] => []
  | [b0] =>
      [b64urlChar (b0 / 4), b64urlChar (b0 % 4 * 16)]
  | [b0, b1] =>
      [b64urlChar (b0 / 4), b64urlChar (b0 % 4 * 16 + b1 / 16),
       b64urlChar (b1 % 16 * 4)]
  | b0 :: b1 :: b2 :: rest =>
      b64urlChar (b0 / 4) :: b64urlChar (b0 % 4 * 16 + b1 / 16) ::
      b64urlChar (b1 % 16 * 4 + b2 / 64) :: b64urlChar (b2 % 64) ::
      b64urlEncodeRaw rest

/-! ## PKCE parameter generation

`secrets.token_bytes` and `hashlib.sha256` are external libraries: the random
bytes and the hash function are parameters of the model. -/

/-- `verifier.encode('ascii')`: code points of the string (the verifier is
always an ASCII base64url string). -/
def asciiBytes (s : String) : List Nat :=
  s.data.map Char.toNat

/-- `generate_code_verifier()`: base64url-encode 32 random bytes; the random
bytes `rnd` delivered by `secrets.token_bytes(32)` are a parameter. -/
def generate_code_verifier (rnd : List Nat) : String :=
  base64_url_encode rnd

/-- `generate_code_challenge(verifier)`: base64url-encode the SHA-256 digest
of the ASCII bytes of the verifier; the digest function `sha256` supplied by
`hashlib` is a parameter. -/
def generate_code_challenge (sha256 : List Nat → List Nat) (verifier : String) : String :=
  base64_url_encode (sha256 (asciiBytes verifier))

/-! ## Query-string parsing (`urllib.parse` as used by the callback handler)

`urlparse(path).query` extracts the query component: the fragment (after the
first `#`) is removed first, then the query is everything after the first `?`
of the remainder.  `parse_qs(query)` splits on `&`, splits each field on the
first `=`, drops fields with no `=` and fields whose raw value is empty
(`keep_blank_values` defaults to `False`), replaces `+` by space and
percent-decodes name and value.  Percent-decoding is modelled byte-wise
(faithful for the ASCII escapes that can occur in OAuth callbacks). -/

/-- Split a character list at the first occurrence of `sep`: the part before
and, when `sep` occurs, the part after. -/
def splitAtFirst (sep : Char) : List Char → List Char × Option (List Char)
  | [] => ([], none)
  | c :: cs =>
      if c = sep then ([], some cs)
      else (c :: (splitAtFirst sep cs).1, (splitAtFirst sep cs).2)

/-- `urlparse(url).query` for the relative references the handler sees. -/
def urlparseQuery (url : String) : List Char :=
  let noFrag := (splitAtFirst '#' url.data).1
  ((splitAtFirst '?' noFrag).2).getD []

/-- Split a character list on every occurrence of `sep` (Python's
`str.split(sep)`: `n` separators give `n+1` groups, empty groups kept). -/
def splitAll (sep : Char) : List Char → List (List Char)
  | [] => [[]]
  | c :: cs =>
      match splitAll sep cs with
      | [] => [[c]]
      | g :: gs => if c = sep then [] :: g :: gs else (c :: g) :: gs

/-- Value of a hex digit. -/
def hexVal (c : Char) : Option Nat :=
  if 48 ≤ c.toNat ∧ c.toNat ≤ 57 then some (c.toNat - 48)
  else if 65 ≤ c.toNat ∧ c.toNat ≤ 70 then some (c.toNat - 65 + 10)
  else if 97 ≤ c.toNat ∧ c.toNat ≤ 102 then some (c.toNat - 97 + 10)
  else none

/-- Byte-wise model of `urllib.parse.unquote`: `%XX` hex escapes become the
character with that code; invalid escapes are left untouched. -/
def percentDecode : List Char → List Char
  | [] => []
  | '%' :: h1 :: h2 :: rest =>
      match hexVal h1, hexVal h2 with
      | some a, some b => Char.ofNat (16 * a + b) :: percentDecode rest
      | _, _ => '%' :: percentDecode (h1 :: h2 :: rest)
  | c :: rest => c :: percentDecode rest

/-- `unquote_plus` as applied by `parse_qs`: `+` to space, then unquote. -/
def unquotePlus (cs : List Char) : String :=
  String.mk (percentDecode (cs.map (fun c => if c = '+' then ' ' else c)))

/-- One field of a query string, as `parse_qsl` treats it: fields without
`=` and fields whose raw value is empty are dropped. -/
def parseQsField (field : List Char) : Option (String × String) :=
  match splitAtFirst '=' field with
  | (_, none) => none
  | (name, some value) =>
      if value.isEmpty then none
      else some (unquotePlus name, unquotePlus value)

/-- `urllib.parse.parse_qsl(query)` with default options: the surviving
`(name, value)` pairs in order. -/
def parse_qsl (query : List Char) : List (String × String) :=
  (splitAll '&' query).filterMap parseQsField

/-- `'k' in parse_qs(query)`: some pair with this name survives parsing. -/
def qsHasParam (query : List Char) (k : String) : Bool :=
  (parse_qsl query).any (fun p => p.1 == k)

/-- `parse_qs(query)['k'][0]`: the first value bound to `k`. -/
def qsFirst (query : List Char) (k : String) : String :=
  match (parse_qsl query).find? (fun p => p.1 == k) with
  | some p => p.2
  | none => ""

/-! ## The callback handler (`OAuthHandler.do_GET`) and the accept loop -/

/-- `s.startswith(pat)`: `pat.data` is a leading portion of `s.data`. -/
def startsWithChars : List Char → List Char → Bool
  | [], _ => true
  | _ :: _, [] => false
  | p :: ps, c :: cs => p = c && startsWithChars ps cs

/-- Python's `str.startswith` on our strings. -/
def pyStartsWith (s pat : String) : Bool :=
  startsWithChars pat.data s.data

/-- The value stored into the `auth_result` global: `{'code': ...}` or
`{'error': ...}`. -/
inductive AuthResult where
  | success (code : String)
  | failure (error : String)
deriving DecidableEq, Repr

/-- An HTTP response the handler writes back to the browser. -/
structure HttpReply where
  status : Nat
  body : String
deriving DecidableEq, Repr

/-- The handler's success page (contents abbreviated faithfully to intent;
only its distinctness from the error page matters to the claims). -/
def successPage : String :=
  "Authentication Successful! You can close this window and return to the terminal."

/-- The handler's error page, mentioning the error code. -/
def errorPage (errorMsg : String) : String :=
  "Authentication Failed. Error: " ++ errorMsg

namespace OAuthHandler

/-- `OAuthHandler.do_GET` from google-auth-server.py.  Returns the value
written to the `auth_result` global (`none` = the global is left untouched
and the attempt stays unresolved) and the HTTP reply (`none` = the handler
returned without writing any response). -/
def do_GET (path : String) : Option AuthResult × Option HttpReply :=
  if pyStartsWith path "/callback" then
    let query := urlparseQuery path
    if qsHasParam query "code" then
      (some (.success (qsFirst query "code")), some ⟨200, successPage⟩)
    else if qsHasParam query "error" then
      (some (.failure (qsFirst query "error")), some ⟨200, errorPage (qsFirst query "error")⟩)
    else
      (none, none)
  else
    (none, some ⟨404, "404"⟩)

end OAuthHandler

/-- The accept loop of `start_auth_flow`:
`while auth_result is None: httpd.handle_request()`.
Requests are consumed one at a time from the (conceptually infinite) queue of
incoming connections; the loop exits the moment a handled request resolves
`auth_result`, leaving the rest of the queue unserviced.  Returns the
resolved result (`none` when the finite queue is exhausted and the loop is
still waiting) and the unserviced remainder of the queue. -/
def listenLoop : List String → Option AuthResult × List String
  | [] => (none, [])
  | p :: rest =>
      match (OAuthHandler.do_GET p).1 with
      | some r => (some r, rest)
      | none => listenLoop rest

/-! ## JSON documents (as far as the two servers inspect them)

Both servers only ever treat JSON bodies as flat string-valued objects
(`params.get(...)`, `params['client_secret'] = ...`, `response_json.get(...)`).
A document is either such an object or malformed text on which `json.loads`
raises.  `renderJson` is `json.dumps` with its default separators; escaping
inside strings is not modelled (no claim touches it). -/

inductive JsonDoc where
  | malformed (raw : String)
  | obj (fields : List (String × String))
deriving DecidableEq, Repr

/-- `json.dumps` of a flat string-valued object. -/
def renderJson (fields : List (String × String)) : String :=
  "\x7b" ++ String.intercalate ", "
    (fields.map (fun p => "\"" ++ p.1 ++ "\": \"" ++ p.2 ++ "\"")) ++ "\x7d"

/-- The transmitted bytes of a document. -/
def JsonDoc.raw : JsonDoc → String
  | .malformed r => r
  | .obj fs => renderJson fs

/-- `json.loads`: `none` means the call raises. -/
def json_loads : JsonDoc → Option (List (String × String))
  | .malformed _ => none
  | .obj fs => some fs

/-- `d.get(k, default)` on a parsed object / `d[k]` lookup. -/
def dictGet? (fields : List (String × String)) (k : String) : Option String :=
  (fields.find? (fun p => p.1 == k)).map Prod.snd

/-- `d[k] = v` on a Python dict: replace the value in place when the key
exists, otherwise append the new entry. -/
def dictSet : List (String × String) → String → String → List (String × String)
  | [], k, v => [(k, v)]
  | (k', v') :: rest, k, v =>
      if k' = k then (k, v) :: rest else (k', v') :: dictSet rest k v

/-- The keys of a parsed object, in order. -/
def dictKeys (fields : List (String × String)) : List String :=
  fields.map Prod.fst

/-! ## The orchestrator's outbound traffic (google-auth-server.py) -/

/-- Local-server constants of google-auth-server.py. -/
def PORT : Nat := 8080

def REDIRECT_URI : String := "http://localhost:8080/callback"

def USERINFO_URI : String := "https://www.googleapis.com/oauth2/v2/userinfo"

/-- The authorization-request parameters of `start_auth_flow`
(lines 163-173), in source order. -/
def authRequestParams (clientId redirectUri challenge st : String) :
    List (String × String) :=
  [("client_id", clientId),
   ("redirect_uri", redirectUri),
   ("response_type", "code"),
   ("scope", "openid email profile"),
   ("code_challenge", challenge),
   ("code_challenge_method", "S256"),
   ("state", st),
   ("access_type", "offline"),
   ("prompt", "consent")]

/-- The token-exchange parameters of `exchange_code_for_tokens`
(lines 206-213), in source order. -/
def tokenRequestParams (clientId clientSecret redirectUri authCode codeVerifier : String) :
    List (String × String) :=
  [("grant_type", "authorization_code"),
   ("code", authCode),
   ("redirect_uri", redirectUri),
   ("client_id", clientId),
   ("client_secret", clientSecret),
   ("code_verifier", codeVerifier)]

/-- The refresh parameters of `main` (lines 309-314), in source order. -/
def refreshRequestParams (clientId clientSecret refreshToken : String) :
    List (String × String) :=
  [("grant_type", "refresh_token"),
   ("refresh_token", refreshToken),
   ("client_id", clientId),
   ("client_secret", clientSecret)]

/-- Observable steps of `start_auth_flow`, in the order the source
performs them. -/
inductive FlowEvent where
  | generatePkce
  | openBrowser (url : String)
  | bindListener (port : Nat)
  | handleRequest (path : String)
deriving DecidableEq, Repr

def FlowEvent.isOpenBrowser : FlowEvent → Bool
  | .openBrowser _ => true
  | _ => false

def FlowEvent.isBindListener : FlowEvent → Bool
  | .bindListener _ => true
  | _ => false

/-- The event trace of `start_auth_flow` (lines 155-199): generate the PKCE
parameters, open the browser on the authorization URL (line 181), then bind
the TCP server (line 187) and run the accept loop (lines 191-192) over the
queue `reqs` of incoming requests. -/
def start_auth_flow_events (authUrl : String) (reqs : List String) : List FlowEvent :=
  [FlowEvent.generatePkce, FlowEvent.openBrowser authUrl, FlowEvent.bindListener PORT]
    ++ (reqs.map FlowEvent.handleRequest)

/-- An outbound HTTP request: destination URL and the key-value fields of
its body (percent-encoding of the wire format is not modelled). -/
structure SentRequest where
  url : String
  fields : List (String × String)
deriving DecidableEq, Repr

/-- What the identity provider's endpoint does with one outbound request:
`urllib.request.urlopen` either returns a 2xx response or raises
`HTTPError` with a status and an error body. -/
inductive HttpOutcome where
  | ok (body : JsonDoc)
  | httpError (code : Nat) (body : String)
deriving DecidableEq, Repr

/-- Everything observable about one run of `exchange_code_for_tokens`. -/
structure ExchangeRun where
  result : Option (List (String × String))
  sent : List SentRequest
  logs : List String
  raised : Option String
deriving DecidableEq, Repr

/-- `exchange_code_for_tokens(auth_code, code_verifier)` (lines 201-230).
Builds the token request (with the client secret loaded by this process),
sends it once to `TOKEN_URI`, and either parses the 2xx body (an unparsable
2xx body raises out of the function), or, on `HTTPError`, prints the error
body verbatim and returns `None`.  There is no loop and no second request. -/
def exchange_code_for_tokens (clientId clientSecret tokenUri redirectUri : String)
    (authCode codeVerifier : String) (upstream : HttpOutcome) : ExchangeRun :=
  let params := tokenRequestParams clientId clientSecret redirectUri authCode codeVerifier
  let req : SentRequest := ⟨tokenUri, params⟩
  match upstream with
  | .ok body =>
      match json_loads body with
      | some tokens =>
          ⟨some tokens, [req],
           ["🔄 Exchanging code for tokens...", "✅ Tokens received!"], none⟩
      | none =>
          ⟨none, [req], ["🔄 Exchanging code for tokens..."],
           some "json.loads raised on the 2xx body"⟩
  | .httpError _code errorBody =>
      ⟨none, [req],
       ["🔄 Exchanging code for tokens...",
        "❌ Token exchange failed: " ++ errorBody], none⟩

/-- A message sent by the orchestrator process or stored in its globals. -/
inductive OrchMessage where
  | sent (dest : String) (fields : List (String × String))
  | stored (slot : String) (fields : List (String × String))
deriving DecidableEq, Repr

def OrchMessage.fields : OrchMessage → List (String × String)
  | .sent _ fs => fs
  | .stored _ fs => fs

/-- Every message of `main`'s pipeline that google-auth-server.py sends or
stores, given the run's data: the authorization request handed to the
browser (line 175), the stored callback result (line 116), the token
exchange (lines 206-220), the userinfo request (lines 236-239), and the
refresh request (lines 309-321). -/
def orchestratorMessages (clientId clientSecret authUri tokenUri : String)
    (verifier challenge st authCode accessToken refreshToken : String) :
    List OrchMessage :=
  [OrchMessage.sent authUri (authRequestParams clientId REDIRECT_URI challenge st),
   OrchMessage.stored "auth_result" [("code", authCode)],
   OrchMessage.sent tokenUri
     (tokenRequestParams clientId clientSecret REDIRECT_URI authCode verifier),
   OrchMessage.sent USERINFO_URI [("Authorization", "Bearer " ++ accessToken)],
   OrchMessage.sent tokenUri (refreshRequestParams clientId clientSecret refreshToken)]

/-- A message carries the authorization code, the PKCE verifier and the
client secret together when all three field names are present. -/
def hasAllThree (fields : List (String × String)) : Bool :=
  (fields.any (fun p => p.1 == "code")) &&
  (fields.any (fun p => p.1 == "client_secret")) &&
  (fields.any (fun p => p.1 == "code_verifier"))

/-! ## The secret-injecting proxy (google-proxy-server.py)

The identity provider's reaction to the forwarded request enters the model
as an oracle value (`UpstreamResult`), the textual message `str(e)` of a
JSON decode exception as a function parameter `jsonErr`, and the timestamp
of `log_date_time_string()` as the string `date`. -/

/-- What `urlopen` on the forwarded request produces: a 2xx response, an
`HTTPError` carrying a status and body, or some other local/network
exception with message `msg` (caught by the outer `except`). -/
inductive UpstreamResult where
  | ok (status : Nat) (body : JsonDoc)
  | httpError (code : Nat) (body : JsonDoc)
  | netFail (msg : String)
deriving DecidableEq, Repr

/-- An HTTP response written by the proxy. -/
structure ProxyResponse where
  status : Nat
  contentType : String
  body : String
deriving DecidableEq, Repr

/-- Everything observable about the proxy's handling of one request:
the response to the caller, the fields forwarded upstream (`none` when no
upstream call is made), and every line printed. -/
structure ProxyStep where
  response : ProxyResponse
  forwarded : Option (List (String × String))
  logs : List String
deriving DecidableEq, Repr

namespace ProxyHandler

/-- `BaseHTTPRequestHandler.send_response` calls `log_request`, and the
overridden `log_message` prints only when the status is not 200. -/
def logRequestLine (date requestline : String) (code : Nat) : List String :=
  if code = 200 then []
  else ["[" ++ date ++ "] \"" ++ requestline ++ "\" " ++ toString code ++ " -"]

/-- The synthesized body of the outer `except` branch (lines 151-154). -/
def proxyErrorBody (msg : String) : String :=
  renderJson [("error", "proxy_error"), ("error_description", msg)]

/-- The log lines printed on receipt of a parsed request (lines 92-98). -/
def incomingLogs (params : List (String × String)) : List String :=
  let grantType := (dictGet? params "grant_type").getD "unknown"
  ["[PROXY] ← From client: grant_type=" ++ grantType] ++
  (if grantType = "authorization_code" then
    ["        code=" ++ ((dictGet? params "code").getD "").take 20 ++ "...",
     "        verifier=" ++ ((dictGet? params "code_verifier").getD "").take 20 ++ "..."]
  else if grantType = "refresh_token" then
    ["        refresh_token=" ++ ((dictGet? params "refresh_token").getD "").take 20 ++ "..."]
  else [])

/-- The log lines printed about a 2xx upstream body (lines 119-122). -/
def upstreamOkLogs (rj : List (String × String)) : List String :=
  ["[PROXY] ← From Google: access_token=" ++
     ((dictGet? rj "access_token").getD "").take 20 ++ "..."] ++
  (match dictGet? rj "refresh_token" with
   | some rt => ["        refresh_token=" ++ rt.take 20 ++ "..."]
   | none => []) ++
  ["        expires_in=" ++ ((dictGet? rj "expires_in").getD "N/A") ++ "s"]

/-- The log lines printed about an upstream `HTTPError` (lines 136-138). -/
def upstreamErrLogs (code : Nat) (ej : List (String × String)) : List String :=
  ["[PROXY] ← From Google: ERROR " ++ toString code,
   "        error=" ++ ((dictGet? ej "error").getD "unknown"),
   "        description=" ++ ((dictGet? ej "error_description").getD "N/A")]

/-- `ProxyHandler.do_GET` (lines 72-80): health check or 404.  Returns the
response and the printed log lines. -/
def do_GET (date requestline : String) (path : String) : ProxyResponse × List String :=
  if path = "/health" then
    (⟨200, "application/json", renderJson [("status", "healthy")]⟩,
     logRequestLine date requestline 200)
  else
    (⟨404, "text/html", "404"⟩, logRequestLine date requestline 404)

/-- `ProxyHandler.do_POST` (lines 82-158).  On `/token`: parse the body
(a parse failure reaches the outer `except`: synthesized 500), inject the
secret into the parsed fields, forward once, then relay a parsable 2xx body
with hardcoded status 200, relay a parsable `HTTPError` body with the
upstream status, and turn everything else (unparsable upstream body,
network failure) into the synthesized 500.  Any other path: 404. -/
def do_POST (jsonErr : String → String) (date requestline : String)
    (secret tokenUri : String) (path : String) (reqBody : JsonDoc)
    (upstream : UpstreamResult) : ProxyStep :=
  if path = "/token" then
    match json_loads reqBody with
    | none =>
        let msg := jsonErr reqBody.raw
        ⟨⟨500, "application/json", proxyErrorBody msg⟩, none,
         logRequestLine date requestline 500 ++ ["❌ Proxy error: " ++ msg]⟩
    | some params =>
        let params' := dictSet params "client_secret" secret
        let preLogs := incomingLogs params ++
          ["[PROXY] + Adding: client_secret=****", "[PROXY] → To Google: " ++ tokenUri]
        match upstream with
        | .ok _status body =>
            match json_loads body with
            | some rj =>
                ⟨⟨200, "application/json", body.raw⟩, some params',
                 preLogs ++ upstreamOkLogs rj ++ ["[PROXY] → To client: forwarded response"]⟩
            | none =>
                let msg := jsonErr body.raw
                ⟨⟨500, "application/json", proxyErrorBody msg⟩, some params',
                 preLogs ++ logRequestLine date requestline 500 ++
                   ["❌ Proxy error: " ++ msg]⟩
        | .httpError code body =>
            match json_loads body with
            | some ej =>
                ⟨⟨code, "application/json", body.raw⟩, some params',
                 preLogs ++ upstreamErrLogs code ej ++
                   logRequestLine date requestline code ++
                   ["[PROXY] → To client: forwarded error"]⟩
            | none =>
                let msg := jsonErr body.raw
                ⟨⟨500, "application/json", proxyErrorBody msg⟩, some params',
                 preLogs ++ logRequestLine date requestline 500 ++
                   ["❌ Proxy error: " ++ msg]⟩
        | .netFail msg =>
            ⟨⟨500, "application/json", proxyErrorBody msg⟩, some params',
             preLogs ++ logRequestLine date requestline 500 ++
               ["❌ Proxy error: " ++ msg]⟩
  else
    ⟨⟨404, "text/html", "404"⟩, none, logRequestLine date requestline 404⟩

end ProxyHandler

/-! ## Helper lemmas -/

theorem b64urlIndex_b64urlChar : ∀ n, n < 64 → b64urlIndex (b64urlChar n) = some n := by
  decide

theorem b64urlChar_ne_pad : ∀ n, n < 64 → b64urlChar n ≠ '=' := by
  decide

theorem rstripEq_no_pad (cs : List Char) (h : ∀ c ∈ cs, c ≠ '=') :
    rstripEq cs = cs := by
  induction cs with
  | nil => rfl
  | cons c cs ih =>
      have hc : c ≠ '=' := h c (List.mem_cons_self c cs)
      have hcs : rstripEq cs = cs := ih (fun x hx => h x (List.mem_cons_of_mem c hx))
      cases cs with
      | nil => simp [rstripEq, hc]
      | cons d ds =>
          have hun : rstripEq (c :: d :: ds) =
              match rstripEq (d :: ds) with
              | [] => if c = '=' then [] else [c]
              | r => c :: r := rfl
          rw [hun, hcs]

theorem rstripEq_append_left (xs ys : List Char) (h : rstripEq ys ≠ []) :
    rstripEq (xs ++ ys) = xs ++ rstripEq ys := by
  induction xs with
  | nil => simp
  | cons x xs ih =>
      have hun : rstripEq (x :: (xs ++ ys)) =
          match rstripEq (xs ++ ys) with
          | [] => if x = '=' then [] else [x]
          | r => x :: r := rfl
      rw [List.cons_append, hun, ih]
      cases hys : rstripEq ys with
      | nil => exact absurd hys h
      | cons r rs =>
          cases xs with
          | nil => rfl
          | cons x2 xs2 => rfl

theorem mem_b64urlEncodeRaw_ne_pad (bs : List Nat) (h : ∀ b ∈ bs, b < 256) :
    ∀ c ∈ b64urlEncodeRaw bs, c ≠ '=' := by
  induction bs using b64urlEncodeRaw.induct with
  | case1 => intro c hc; simp [b64urlEncodeRaw] at hc
  | case2 b0 =>
      have hb0 : b0 < 256 := h b0 (by simp)
      intro c hc
      simp only [b64urlEncodeRaw, List.mem_cons, List.mem_singleton,
        List.not_mem_nil, or_false] at hc
      rcases hc with rfl | rfl
      · exact b64urlChar_ne_pad _ (by omega)
      · exact b64urlChar_ne_pad _ (by omega)
  | case3 b0 b1 =>
      have hb0 : b0 < 256 := h b0 (by simp)
      have hb1 : b1 < 256 := h b1 (by simp)
      intro c hc
      simp only [b64urlEncodeRaw, List.mem_cons, List.not_mem_nil, or_false] at hc
      rcases hc with rfl | rfl | rfl
      · exact b64urlChar_ne_pad _ (by omega)
      · exact b64urlChar_ne_pad _ (by omega)
      · exact b64urlChar_ne_pad _ (by omega)
  | case4 b0 b1 b2 rest ih =>
      have hb0 : b0 < 256 := h b0 (by simp)
      have hb1 : b1 < 256 := h b1 (by simp)
      have hb2 : b2 < 256 := h b2 (by simp)
      have hrest : ∀ b ∈ rest, b < 256 := fun b hb => h b (by simp [hb])
      intro c hc
      simp only [b64urlEncodeRaw, List.mem_cons] at hc
      rcases hc with rfl | rfl | rfl | rfl | hc
      · exact b64urlChar_ne_pad _ (by omega)
      · exact b64urlChar_ne_pad _ (by omega)
      · exact b64urlChar_ne_pad _ (by omega)
      · exact b64urlChar_ne_pad _ (by omega)
      · exact ih hrest c hc

theorem b64urlEncodePadded_strip (bs : List Nat) (h : ∀ b ∈ bs, b < 256) :
    rstripEq (b64urlEncodePadded bs) = b64urlEncodeRaw bs := by
  induction bs using b64urlEncodeRaw.induct with
  | case1 => rfl
  | case2 b0 =>
      have hb0 : b0 < 256 := h b0 (by simp)
      have h1 : b64urlChar (b0 / 4) ≠ '=' := b64urlChar_ne_pad _ (by omega)
      have h2 : b64urlChar (b0 % 4 * 16) ≠ '=' := b64urlChar_ne_pad _ (by omega)
      simp [b64urlEncodePadded, b64urlEncodeRaw, rstripEq, h1, h2]
  | case3 b0 b1 =>
      have hb0 : b0 < 256 := h b0 (by simp)
      have hb1 : b1 < 256 := h b1 (by simp)
      have h1 : b64urlChar (b0 / 4) ≠ '=' := b64urlChar_ne_pad _ (by omega)
      have h2 : b64urlChar (b0 % 4 * 16 + b1 / 16) ≠ '=' := b64urlChar_ne_pad _ (by omega)
      have h3 : b64urlChar (b1 % 16 * 4) ≠ '=' := b64urlChar_ne_pad _ (by omega)
      simp [b64urlEncodePadded, b64urlEncodeRaw, rstripEq, h1, h2, h3]
  | case4 b0 b1 b2 rest ih =>
      have hb0 : b0 < 256 := h b0 (by simp)
      have hb1 : b1 < 256 := h b1 (by simp)
      have hb2 : b2 < 256 := h b2 (by simp)
      have hrest : ∀ b ∈ rest, b < 256 := fun b hb => h b (by simp [hb])
      have hih := ih hrest
      show rstripEq ([b64urlChar (b0 / 4), b64urlChar (b0 % 4 * 16 + b1 / 16),
        b64urlChar (b1 % 16 * 4 + b2 / 64), b64urlChar (b2 % 64)] ++
        b64urlEncodePadded rest) = _
      cases rest with
      | nil =>
          have hne : ∀ c ∈ ([b64urlChar (b0 / 4), b64urlChar (b0 % 4 * 16 + b1 / 16),
              b64urlChar (b1 % 16 * 4 + b2 / 64), b64urlChar (b2 % 64)] : List Char),
              c ≠ '=' := by
            intro c hc
            simp only [List.mem_cons, List.not_mem_nil, or_false] at hc
            rcases hc with rfl | rfl | rfl | rfl
            all_goals exact b64urlChar_ne_pad _ (by omega)
          simpa [b64urlEncodePadded, b64urlEncodeRaw] using
            rstripEq_no_pad _ hne
      | cons r rs =>
          have hnn : b64urlEncodeRaw (r :: rs) ≠ [] := by
            cases rs with
            | nil => simp [b64urlEncodeRaw]
            | cons r2 rs2 =>
                cases rs2 with
                | nil => simp [b64urlEncodeRaw]
                | cons r3 rs3 => simp [b64urlEncodeRaw]
          have hnn' : rstripEq (b64urlEncodePadded (r :: rs)) ≠ [] := by
            rw [hih]; exact hnn
          rw [rstripEq_append_left _ _ hnn', hih]
          simp [b64urlEncodeRaw]

theorem b64urlDecode_encodeRaw (bs : List Nat) (h : ∀ b ∈ bs, b < 256) :
    b64urlDecodeChars (b64urlEncodeRaw bs) = some bs := by
  induction bs using b64urlEncodeRaw.induct with
  | case1 => rfl
  | case2 b0 =>
      have hb0 : b0 < 256 := h b0 (by simp)
      simp only [b64urlEncodeRaw, b64urlDecodeChars,
        b64urlIndex_b64urlChar _ (by omega : b0 / 4 < 64),
        b64urlIndex_b64urlChar _ (by omega : b0 % 4 * 16 < 64)]
      congr 1
      congr 1
      omega
  | case3 b0 b1 =>
      have hb0 : b0 < 256 := h b0 (by simp)
      have hb1 : b1 < 256 := h b1 (by simp)
      simp only [b64urlEncodeRaw, b64urlDecodeChars,
        b64urlIndex_b64urlChar _ (by omega : b0 / 4 < 64),
        b64urlIndex_b64urlChar _ (by omega : b0 % 4 * 16 + b1 / 16 < 64),
        b64urlIndex_b64urlChar _ (by omega : b1 % 16 * 4 < 64)]
      congr 1
      have e0 : b0 / 4 * 4 + (b0 % 4 * 16 + b1 / 16) / 16 = b0 := by omega
      have e1 : (b0 % 4 * 16 + b1 / 16) % 16 * 16 + b1 % 16 * 4 / 4 = b1 := by omega
      rw [e0, e1]
  | case4 b0 b1 b2 rest ih =>
      have hb0 : b0 < 256 := h b0 (by simp)
      have hb1 : b1 < 256 := h b1 (by simp)
      have hb2 : b2 < 256 := h b2 (by simp)
      have hrest : ∀ b ∈ rest, b < 256 := fun b hb => h b (by simp [hb])
      have hih := ih hrest
      simp only [b64urlEncodeRaw, b64urlDecodeChars,
        b64urlIndex_b64urlChar _ (by omega : b0 / 4 < 64),
        b64urlIndex_b64urlChar _ (by omega : b0 % 4 * 16 + b1 / 16 < 64),
        b64urlIndex_b64urlChar _ (by omega : b1 % 16 * 4 + b2 / 64 < 64),
        b64urlIndex_b64urlChar _ (by omega : b2 % 64 < 64), hih]
      have e0 : b0 / 4 * 4 + (b0 % 4 * 16 + b1 / 16) / 16 = b0 := by omega
      have e1 : (b0 % 4 * 16 + b1 / 16) % 16 * 16 + (b1 % 16 * 4 + b2 / 64) / 4 = b1 := by
        omega
      have e2 : (b1 % 16 * 4 + b2 / 64) % 4 * 64 + b2 % 64 = b2 := by omega
      rw [e0, e1, e2]

/-- Base64url round trip: decoding the unpadded encoding of a byte list
recovers the byte list. -/
theorem base64_url_decode_encode (bs : List Nat) (h : ∀ b ∈ bs, b < 256) :
    base64_url_decode (base64_url_encode bs) = some bs := by
  show b64urlDecodeChars (String.mk (rstripEq (b64urlEncodePadded bs))).data = some bs
  rw [show (String.mk (rstripEq (b64urlEncodePadded bs))).data
      = rstripEq (b64urlEncodePadded bs) from rfl,
    b64urlEncodePadded_strip bs h, b64urlDecode_encodeRaw bs h]

theorem base64_url_encode_no_pad (bs : List Nat) (h : ∀ b ∈ bs, b < 256) :
    ∀ c ∈ (base64_url_encode bs).data, c ≠ '=' := by
  show ∀ c ∈ rstripEq (b64urlEncodePadded bs), c ≠ '='
  rw [b64urlEncodePadded_strip bs h]
  exact mem_b64urlEncodeRaw_ne_pad bs h

theorem dictGet?_dictSet_same (ps : List (String × String)) (k v : String) :
    dictGet? (dictSet ps k v) k = some v := by
  induction ps with
  | nil => simp [dictSet, dictGet?]
  | cons p rest ih =>
      cases p with
      | mk a b =>
          by_cases hk : a = k
          · simp [dictSet, hk, dictGet?]
          · simp only [dictSet, if_neg hk, dictGet?, List.find?_cons,
              show (a == k) = false from beq_eq_false_iff_ne.2 hk]
            exact ih

theorem dictGet?_dictSet_other (ps : List (String × String)) (k v k' : String)
    (h : k' ≠ k) :
    dictGet? (dictSet ps k v) k' = dictGet? ps k' := by
  induction ps with
  | nil =>
      simp [dictSet, dictGet?, List.find?,
        show (k == k') = false from beq_eq_false_iff_ne.2 (Ne.symm h)]
  | cons p rest ih =>
      cases p with
      | mk a b =>
          by_cases hk : a = k
          · subst hk
            simp [dictSet, dictGet?, List.find?_cons,
              show (a == k') = false from beq_eq_false_iff_ne.2 (Ne.symm h)]
          · simp only [dictSet, if_neg hk]
            by_cases ha : a = k'
            · subst ha
              simp [dictGet?, List.find?_cons]
            · simp only [dictGet?, List.find?_cons,
                show (a == k') = false from beq_eq_false_iff_ne.2 ha]
              exact ih

theorem dictKeys_cons (q : String × String) (l : List (String × String)) :
    dictKeys (q :: l) = q.1 :: dictKeys l := rfl

theorem dictKeys_dictSet (ps : List (String × String)) (k v : String) :
    dictKeys (dictSet ps k v) =
      if (dictKeys ps).contains k then dictKeys ps else dictKeys ps ++ [k] := by
  induction ps with
  | nil => simp [dictSet, dictKeys]
  | cons p rest ih =>
      cases p with
      | mk a b =>
          by_cases hk : a = k
          · subst hk
            simp [dictSet, dictKeys_cons, List.contains_cons]
          · have hbeq : (k == a) = false := beq_eq_false_iff_ne.2 (Ne.symm hk)
            simp only [dictSet, if_neg hk, dictKeys_cons]
            rw [ih]
            cases hc : (dictKeys rest).contains k with
            | true =>
                simp at hc
                simp [List.contains_cons, hc]
            | false =>
                simp at hc hbeq
                simp [List.contains_cons, hc, hbeq]

/-! ## Claims -/

/-- C2: for every generated code verifier (32 secure-random bytes,
base64url-encoded) and for every digest the external SHA-256 produces on it,
the generated code challenge decodes back to exactly that digest
(`base64url-decode(challenge) = SHA256(verifier)`), and neither the verifier
string nor the challenge string contains a `=` padding character. -/
theorem pkce_challenge_decodes_to_digest_and_no_padding
    (rnd : List Nat) (sha256 : List Nat → List Nat)
    (hlen : rnd.length = 32) (hbytes : ∀ b ∈ rnd, b < 256)
    (hdlen : (sha256 (asciiBytes (generate_code_verifier rnd))).length = 32)
    (hdbytes : ∀ b ∈ sha256 (asciiBytes (generate_code_verifier rnd)), b < 256) :
    base64_url_decode (generate_code_challenge sha256 (generate_code_verifier rnd))
      = some (sha256 (asciiBytes (generate_code_verifier rnd)))
    ∧ (∀ c ∈ (generate_code_verifier rnd).data, c ≠ '=')
    ∧ (∀ c ∈ (generate_code_challenge sha256 (generate_code_verifier rnd)).data, c ≠ '=') := by
  refine ⟨?_, ?_, ?_⟩
  · show base64_url_decode (base64_url_encode _) = _
    exact base64_url_decode_encode _ hdbytes
  · exact base64_url_encode_no_pad _ hbytes
  · exact base64_url_encode_no_pad _ hdbytes

/-- Witness for C2 at concrete random bytes `0..31` and the concrete digest
function that returns `0..31` on every input. -/
theorem pkce_challenge_decodes_to_digest_and_no_padding_witness :
    base64_url_decode (generate_code_challenge (fun _ => List.range 32)
        (generate_code_verifier (List.range 32)))
      = some ((fun _ => List.range 32) (asciiBytes (generate_code_verifier (List.range 32))))
    ∧ (∀ c ∈ (generate_code_verifier (List.range 32)).data, c ≠ '=')
    ∧ (∀ c ∈ (generate_code_challenge (fun _ => List.range 32)
        (generate_code_verifier (List.range 32))).data, c ≠ '=') :=
  pkce_challenge_decodes_to_digest_and_no_padding (List.range 32) (fun _ => List.range 32)
    (by decide) (by decide) (by decide) (by decide)

/-- C4: contrary to the claimed ordering invariant, `start_auth_flow` opens
the browser on the authorization URL (line 181) strictly before it binds the
callback listener's TCP server (line 187): in every execution trace the
browser-open event is at index 1 and the bind event at index 2. -/
theorem browser_opened_before_listener_bound (authUrl : String) (reqs : List String) :
    (start_auth_flow_events authUrl reqs).findIdx FlowEvent.isOpenBrowser = 1
    ∧ (start_auth_flow_events authUrl reqs).findIdx FlowEvent.isBindListener = 2
    ∧ (start_auth_flow_events authUrl reqs).findIdx FlowEvent.isOpenBrowser <
        (start_auth_flow_events authUrl reqs).findIdx FlowEvent.isBindListener := by
  refine ⟨?_, ?_, ?_⟩ <;>
    simp [start_auth_flow_events, List.findIdx_cons, FlowEvent.isOpenBrowser,
      FlowEvent.isBindListener]

/-- C5: once a handled request resolves the result, the accept loop of
`start_auth_flow` terminates: any further queued requests are left entirely
unserviced and the resolved result is unchanged, whatever they are. -/
theorem listener_stops_after_resolution (reqs more : List String) (r : AuthResult)
    (rem : List String) (h : listenLoop reqs = (some r, rem)) :
    listenLoop (reqs ++ more) = (some r, rem ++ more) := by
  induction reqs generalizing rem with
  | nil => simp [listenLoop] at h
  | cons p rest ih =>
      rw [List.cons_append]
      cases hg : (OAuthHandler.do_GET p).1 with
      | some r0 =>
          simp only [listenLoop, hg, Prod.mk.injEq, Option.some.injEq] at h
          obtain ⟨rfl, rfl⟩ := h
          simp [listenLoop, hg]
      | none =>
          simp only [listenLoop, hg] at h
          simp only [listenLoop, hg]
          exact ih rem h

/-- Witness for C5: a second callback request queued behind a resolving one
is left unserviced and does not change the captured result. -/
theorem listener_stops_after_resolution_witness :
    listenLoop (["/callback?code=abc"] ++ ["/callback?code=zzz"]) =
      (some (AuthResult.success "abc"), [] ++ ["/callback?code=zzz"]) :=
  listener_stops_after_resolution ["/callback?code=abc"] ["/callback?code=zzz"]
    (AuthResult.success "abc") [] (by decide)

/-- C3: for every GET request, the handler resolves `Success c` exactly when
the path is a callback path (the code's criterion: the raw path string
starts with `/callback`) and the parsed query has a `code` parameter, with
`c` its first value; it resolves `Failure e` exactly when the parsed query
has an `error` parameter and no `code` parameter, with `e` the first error
value; a callback request with neither parameter leaves the result untouched
(and sends no reply at all); a non-callback request changes nothing and is
answered 404. -/
theorem callback_resolution_iff (p : String) :
    (∀ c, (OAuthHandler.do_GET p).1 = some (AuthResult.success c) ↔
        (pyStartsWith p "/callback" = true
          ∧ qsHasParam (urlparseQuery p) "code" = true
          ∧ qsFirst (urlparseQuery p) "code" = c))
    ∧ (∀ e, (OAuthHandler.do_GET p).1 = some (AuthResult.failure e) ↔
        (pyStartsWith p "/callback" = true
          ∧ qsHasParam (urlparseQuery p) "code" = false
          ∧ qsHasParam (urlparseQuery p) "error" = true
          ∧ qsFirst (urlparseQuery p) "error" = e))
    ∧ ((pyStartsWith p "/callback" = true
          ∧ qsHasParam (urlparseQuery p) "code" = false
          ∧ qsHasParam (urlparseQuery p) "error" = false) →
        OAuthHandler.do_GET p = (none, none))
    ∧ (pyStartsWith p "/callback" = false →
        OAuthHandler.do_GET p = (none, some ⟨404, "404"⟩)) := by
  cases h1 : pyStartsWith p "/callback" with
  | true =>
      cases h2 : qsHasParam (urlparseQuery p) "code" with
      | true => simp [OAuthHandler.do_GET, h1, h2]
      | false =>
          cases h3 : qsHasParam (urlparseQuery p) "error" with
          | true => simp [OAuthHandler.do_GET, h1, h2, h3]
          | false => simp [OAuthHandler.do_GET, h1, h2, h3]
  | false => simp [OAuthHandler.do_GET, h1]

/-- Witness for C3: a non-callback request is answered 404 and resolves
nothing. -/
theorem callback_resolution_iff_witness :
    OAuthHandler.do_GET "/favicon.ico" = (none, some ⟨404, "404"⟩) :=
  (callback_resolution_iff "/favicon.ico").2.2.2 (by decide)

/-- C1 counterexample: google-auth-server.py talks to the token endpoint
itself, so the orchestrator process does send one message carrying the
authorization code, the client secret and the PKCE verifier together — the
token-exchange request built at lines 206-213. -/
theorem orchestrator_sends_code_secret_verifier_together :
    OrchMessage.sent "https://oauth2.googleapis.com/token"
        (tokenRequestParams "cid" "SECRET" REDIRECT_URI "AUTHCODE" "VERIFIER")
      ∈ orchestratorMessages "cid" "SECRET" "https://accounts.google.com/o/oauth2/auth"
          "https://oauth2.googleapis.com/token" "VERIFIER" "CHALLENGE" "STATE"
          "AUTHCODE" "AT" "RT"
    ∧ hasAllThree (OrchMessage.sent "https://oauth2.googleapis.com/token"
        (tokenRequestParams "cid" "SECRET" REDIRECT_URI "AUTHCODE" "VERIFIER")).fields
        = true := by
  exact ⟨by decide, by decide⟩

/-- C1 amended: among all messages the orchestrator sends or stores, the
only one in which authorization code, client secret and PKCE verifier appear
together is the token-exchange request, and that request is addressed to the
identity provider's token endpoint. -/
theorem all_three_only_in_token_endpoint_message
    (clientId clientSecret authUri tokenUri : String)
    (verifier challenge st authCode accessToken refreshToken : String)
    (m : OrchMessage)
    (hm : m ∈ orchestratorMessages clientId clientSecret authUri tokenUri
        verifier challenge st authCode accessToken refreshToken)
    (h3 : hasAllThree m.fields = true) :
    m = OrchMessage.sent tokenUri
      (tokenRequestParams clientId clientSecret REDIRECT_URI authCode verifier) := by
  simp only [orchestratorMessages, List.mem_cons, List.not_mem_nil, or_false] at hm
  rcases hm with rfl | rfl | rfl | rfl | rfl
  · rw [show hasAllThree (OrchMessage.sent authUri
        (authRequestParams clientId REDIRECT_URI challenge st)).fields = false from rfl] at h3
    exact absurd h3 Bool.false_ne_true
  · rw [show hasAllThree (OrchMessage.stored "auth_result" [("code", authCode)]).fields
        = false from rfl] at h3
    exact absurd h3 Bool.false_ne_true
  · rfl
  · rw [show hasAllThree (OrchMessage.sent USERINFO_URI
        [("Authorization", "Bearer " ++ accessToken)]).fields = false from rfl] at h3
    exact absurd h3 Bool.false_ne_true
  · rw [show hasAllThree (OrchMessage.sent tokenUri
        (refreshRequestParams clientId clientSecret refreshToken)).fields = false from rfl] at h3
    exact absurd h3 Bool.false_ne_true

/-- Witness for the amended C1 at concrete run data. -/
theorem all_three_only_in_token_endpoint_message_witness :
    OrchMessage.sent "https://t.example/token"
        (tokenRequestParams "cid" "SECRET" REDIRECT_URI "AC" "VER")
      = OrchMessage.sent "https://t.example/token"
        (tokenRequestParams "cid" "SECRET" REDIRECT_URI "AC" "VER") :=
  all_three_only_in_token_endpoint_message "cid" "SECRET" "https://a.example/auth"
    "https://t.example/token" "VER" "CH" "ST" "AC" "AT" "RT" _ (by decide) (by decide)

/-- C6 counterexample: an upstream 2xx whose status is 201 and whose body is
not JSON is not relayed unchanged — the proxy re-parses the body before
relaying, so it answers with the synthesized 500 `proxy_error` body instead
of the upstream status and body. -/
theorem proxy_does_not_relay_unparsable_upstream_success :
    (ProxyHandler.do_POST (fun _ => "Expecting value: line 1 column 1 (char 0)")
        "14/Oct/2026" "POST /token HTTP/1.1" "SECRET" "https://t.example/token"
        "/token" (JsonDoc.obj [("grant_type", "authorization_code")])
        (UpstreamResult.ok 201 (JsonDoc.malformed "oops"))).response
      = ⟨500, "application/json",
          ProxyHandler.proxyErrorBody "Expecting value: line 1 column 1 (char 0)"⟩
    ∧ (ProxyHandler.do_POST (fun _ => "Expecting value: line 1 column 1 (char 0)")
        "14/Oct/2026" "POST /token HTTP/1.1" "SECRET" "https://t.example/token"
        "/token" (JsonDoc.obj [("grant_type", "authorization_code")])
        (UpstreamResult.ok 201 (JsonDoc.malformed "oops"))).response.status ≠ 201
    ∧ (ProxyHandler.do_POST (fun _ => "Expecting value: line 1 column 1 (char 0)")
        "14/Oct/2026" "POST /token HTTP/1.1" "SECRET" "https://t.example/token"
        "/token" (JsonDoc.obj [("grant_type", "authorization_code")])
        (UpstreamResult.ok 201 (JsonDoc.malformed "oops"))).response.body ≠ "oops" := by
  exact ⟨rfl, by decide, by decide⟩

/-- C6 amended: for a parsed `/token` request, a 2xx upstream response whose
body parses as JSON is relayed with its body unchanged but with hardcoded
status 200; an upstream `HTTPError` whose body parses as JSON is relayed
with the upstream status and body unchanged; an unparsable upstream body and
a network failure both yield the synthesized 500 `proxy_error` response. -/
theorem proxy_relay_statuses_and_bodies
    (jsonErr : String → String) (date reqline secret tokenUri : String)
    (params : List (String × String)) :
    (∀ st body rj, json_loads body = some rj →
        (ProxyHandler.do_POST jsonErr date reqline secret tokenUri "/token"
            (JsonDoc.obj params) (UpstreamResult.ok st body)).response
          = ⟨200, "application/json", body.raw⟩)
    ∧ (∀ code body ej, json_loads body = some ej →
        (ProxyHandler.do_POST jsonErr date reqline secret tokenUri "/token"
            (JsonDoc.obj params) (UpstreamResult.httpError code body)).response
          = ⟨code, "application/json", body.raw⟩)
    ∧ (∀ st body, json_loads body = none →
        (ProxyHandler.do_POST jsonErr date reqline secret tokenUri "/token"
            (JsonDoc.obj params) (UpstreamResult.ok st body)).response
          = ⟨500, "application/json", ProxyHandler.proxyErrorBody (jsonErr body.raw)⟩)
    ∧ (∀ code body, json_loads body = none →
        (ProxyHandler.do_POST jsonErr date reqline secret tokenUri "/token"
            (JsonDoc.obj params) (UpstreamResult.httpError code body)).response
          = ⟨500, "application/json", ProxyHandler.proxyErrorBody (jsonErr body.raw)⟩)
    ∧ (∀ msg, (ProxyHandler.do_POST jsonErr date reqline secret tokenUri "/token"
            (JsonDoc.obj params) (UpstreamResult.netFail msg)).response
          = ⟨500, "application/json", ProxyHandler.proxyErrorBody msg⟩) := by
  refine ⟨?_, ?_, ?_, ?_, fun msg => rfl⟩
  · intro st body rj hb
    cases body with
    | malformed raw => simp [json_loads] at hb
    | obj fs => rfl
  · intro code body ej hb
    cases body with
    | malformed raw => simp [json_loads] at hb
    | obj fs => rfl
  · intro st body hb
    cases body with
    | malformed raw => rfl
    | obj fs => simp [json_loads] at hb
  · intro code body hb
    cases body with
    | malformed raw => rfl
    | obj fs => simp [json_loads] at hb

/-- Witness for the amended C6: a 400 `invalid_grant` upstream error is
relayed with its status and body unchanged. -/
theorem proxy_relay_statuses_and_bodies_witness :
    (ProxyHandler.do_POST (fun _ => "E") "d" "POST /token HTTP/1.1" "S"
        "https://t.example/token" "/token" (JsonDoc.obj [("grant_type", "refresh_token")])
        (UpstreamResult.httpError 400 (JsonDoc.obj [("error", "invalid_grant")]))).response
      = ⟨400, "application/json", (JsonDoc.obj [("error", "invalid_grant")]).raw⟩ :=
  (proxy_relay_statuses_and_bodies (fun _ => "E") "d" "POST /token HTTP/1.1" "S"
    "https://t.example/token" [("grant_type", "refresh_token")]).2.1 400
    (JsonDoc.obj [("error", "invalid_grant")]) [("error", "invalid_grant")] rfl

/-- C7: a `/token` request whose body does not parse as JSON gets status 500
with the locally synthesized `proxy_error` body (no crash, no upstream
call), and that response is the same for every value of the client secret —
the synthesized error text cannot contain the secret. -/
theorem proxy_malformed_body_yields_synthesized_500
    (jsonErr : String → String) (date reqline secret tokenUri raw : String)
    (upstream : UpstreamResult) :
    ProxyHandler.do_POST jsonErr date reqline secret tokenUri "/token"
        (JsonDoc.malformed raw) upstream
      = ⟨⟨500, "application/json", ProxyHandler.proxyErrorBody (jsonErr raw)⟩, none,
         ProxyHandler.logRequestLine date reqline 500 ++ ["❌ Proxy error: " ++ jsonErr raw]⟩
    ∧ ∀ secret', (ProxyHandler.do_POST jsonErr date reqline secret' tokenUri "/token"
          (JsonDoc.malformed raw) upstream).response
        = (ProxyHandler.do_POST jsonErr date reqline secret tokenUri "/token"
          (JsonDoc.malformed raw) upstream).response :=
  ⟨rfl, fun _ => rfl⟩

/-- C8: when the token endpoint answers the orchestrator's exchange with a
non-success HTTP status, `exchange_code_for_tokens` returns `None`, its
failure report carries the remote error body verbatim, and exactly one
outbound request was made — there is no retry. -/
theorem exchange_nonsuccess_verbatim_single_request
    (clientId clientSecret tokenUri redirectUri : String)
    (authCode codeVerifier errorBody : String) (code : Nat) :
    (exchange_code_for_tokens clientId clientSecret tokenUri redirectUri authCode
        codeVerifier (HttpOutcome.httpError code errorBody)).result = none
    ∧ (exchange_code_for_tokens clientId clientSecret tokenUri redirectUri authCode
        codeVerifier (HttpOutcome.httpError code errorBody)).sent
      = [⟨tokenUri, tokenRequestParams clientId clientSecret redirectUri authCode codeVerifier⟩]
    ∧ (exchange_code_for_tokens clientId clientSecret tokenUri redirectUri authCode
        codeVerifier (HttpOutcome.httpError code errorBody)).logs
      = ["🔄 Exchanging code for tokens...", "❌ Token exchange failed: " ++ errorBody]
    ∧ (exchange_code_for_tokens clientId clientSecret tokenUri redirectUri authCode
        codeVerifier (HttpOutcome.httpError code errorBody)).raised = none :=
  ⟨rfl, rfl, rfl, rfl⟩

/-- C9: the proxy's response and its log lines are the same function of the
request and the upstream outcome for every value of the loaded client
secret — the secret influences only the body forwarded to the identity
provider, so no response body and no log line can carry it. -/
theorem proxy_output_independent_of_secret
    (jsonErr : String → String) (date reqline tokenUri path : String)
    (reqBody : JsonDoc) (upstream : UpstreamResult) (s₁ s₂ : String) :
    (ProxyHandler.do_POST jsonErr date reqline s₁ tokenUri path reqBody upstream).response
      = (ProxyHandler.do_POST jsonErr date reqline s₂ tokenUri path reqBody upstream).response
    ∧ (ProxyHandler.do_POST jsonErr date reqline s₁ tokenUri path reqBody upstream).logs
      = (ProxyHandler.do_POST jsonErr date reqline s₂ tokenUri path reqBody upstream).logs := by
  by_cases hp : path = "/token"
  · subst hp
    cases reqBody with
    | malformed raw => exact ⟨rfl, rfl⟩
    | obj params =>
        cases upstream with
        | ok st body =>
            cases body with
            | malformed r => exact ⟨rfl, rfl⟩
            | obj rj => exact ⟨rfl, rfl⟩
        | httpError c body =>
            cases body with
            | malformed r => exact ⟨rfl, rfl⟩
            | obj ej => exact ⟨rfl, rfl⟩
        | netFail m => exact ⟨rfl, rfl⟩
  · simp only [ProxyHandler.do_POST, if_neg hp]
    exact ⟨trivial, trivial⟩

/-- C10: for a parsed `/token` request the proxy forwards exactly the
caller's fields with `client_secret` set to its own secret: the forwarded
dict is `params['client_secret'] = CLIENT_SECRET` applied to the caller's
dict, whose `client_secret` entry maps to the proxy's secret (replacing any
caller-supplied value), every other key keeps its value, and the key set
gains at most the one key `client_secret`. -/
theorem proxy_forwards_fields_with_injected_secret
    (jsonErr : String → String) (date reqline secret tokenUri : String)
    (params : List (String × String)) (upstream : UpstreamResult) :
    (ProxyHandler.do_POST jsonErr date reqline secret tokenUri "/token"
        (JsonDoc.obj params) upstream).forwarded
      = some (dictSet params "client_secret" secret)
    ∧ dictGet? (dictSet params "client_secret" secret) "client_secret" = some secret
    ∧ (∀ k, k ≠ "client_secret" →
        dictGet? (dictSet params "client_secret" secret) k = dictGet? params k)
    ∧ dictKeys (dictSet params "client_secret" secret)
        = (if (dictKeys params).contains "client_secret" then dictKeys params
           else dictKeys params ++ ["client_secret"]) := by
  refine ⟨?_, dictGet?_dictSet_same params _ secret,
    fun k hk => dictGet?_dictSet_other params _ secret k hk,
    dictKeys_dictSet params _ secret⟩
  cases upstream with
  | ok st body =>
      cases body with
      | malformed r => rfl
      | obj rj => rfl
  | httpError c body =>
      cases body with
      | malformed r => rfl
      | obj ej => rfl
  | netFail m => rfl

/-- Witness for C10: a caller-supplied `client_secret` value is replaced by
the proxy's own, and another field keeps its value. -/
theorem proxy_forwards_fields_with_injected_secret_witness :
    dictGet? (dictSet [("grant_type", "authorization_code"), ("client_secret", "OLD")]
        "client_secret" "NEW") "grant_type"
      = dictGet? [("grant_type", "authorization_code"), ("client_secret", "OLD")]
          "grant_type" :=
  (proxy_forwards_fields_with_injected_secret (fun _ => "E") "d" "r" "NEW"
    "https://t.example/token" [("grant_type", "authorization_code"), ("client_secret", "OLD")]
    (UpstreamResult.netFail "down")).2.2.1 "grant_type" (by decide)

end DesktopApp
